import Mathlib

/-!
Verification of the WisHub MCP invocation pipeline.

This file gives a shallow embedding, in Lean 4, of the core of the
`wishub-mcp` gateway:

* the fingerprint cache (`src/wishub_mcp/server/cache.py`):
  `CacheManager._hash_context`, `CacheManager._generate_cache_key`,
  `CacheManager.get`, `CacheManager.set`;
* the invocation pipeline (`src/wishub_mcp/server/routes/mcp.py`):
  `invoke_mcp`, `_build_context_string`, `verify_api_key`;
* the adapter registry (`src/wishub_mcp/server/adapters/base.py`):
  `AIAdapterRegistry`;
* the protocol models (`src/wishub_mcp/protocol/models.py`):
  `MCPInvokeRequest`, `MCPInvokeResponse`;
* the health checks (`src/wishub_mcp/monitoring/health.py`).

Modelling conventions:

* Python dictionaries are association lists with in-place update
  (`dictInsert`) and first-match lookup (`dictFind`); this mirrors CPython
  dict semantics: insertion order is preserved, re-assignment of a bound
  key keeps its position.
* JSON-serializable Python values are the inductive `PyValue`.
* Python floats appear only as `temperature`, and only via `str(temperature)`
  inside the cache key; since `str` round-trips floats (it is `repr`), a
  float is modelled by its repr string (`PyFloat`).
* Machine-level hashing (`hashlib.sha256`) is implemented bit-faithfully
  over `Nat`, with UTF-8 encoding of the input string as `str.encode` does.
* `await`ed external calls (Redis, the context provider, adapter back-ends)
  are modelled by explicit outcome values (`Except`) supplied in the
  environment; a raised exception is an `Except.error`.
-/

namespace WishubMCP

/-! ## Python dict primitives -/

/-- Python dict lookup: first (unique) binding of the key. -/
def dictFind {α : Type} : List (String × α) → String → Option α
  | [], _ => Option.none
  | (k, v) :: rest, key => if k = key then some v else dictFind rest key

/-- Python dict assignment `d[k] = v`: replace in place if bound, else append. -/
def dictInsert {α : Type} : List (String × α) → String → α → List (String × α)
  | [], key, v => [(key, v)]
  | (k, w) :: rest, key, v =>
    if k = key then (key, v) :: rest else (k, w) :: dictInsert rest key v

/-! ## SHA-256 over byte lists (hashlib.sha256(...).hexdigest()) -/

def mask32 : Nat := 4294967295

def rotr32 (x n : Nat) : Nat :=
  ((x >>> n) ||| (x <<< (32 - n))) &&& mask32

def sha256K : List Nat :=
  [1116352408, 1899447441, 3049323471, 3921009573, 961987163, 1508970993,
   2453635748, 2870763221, 3624381080, 310598401, 607225278, 1426881987,
   1925078388, 2162078206, 2614888103, 3248222580, 3835390401, 4022224774,
   264347078, 604807628, 770255983, 1249150122, 1555081692, 1996064986,
   2554220882, 2821834349, 2952996808, 3210313671, 3336571891, 3584528711,
   113926993, 338241895, 666307205, 773529912, 1294757372, 1396182291,
   1695183700, 1986661051, 2177026350, 2456956037, 2730485921, 2820302411,
   3259730800, 3345764771, 3516065817, 3600352804, 4094571909, 275423344,
   430227734, 506948616, 659060556, 883997877, 958139571, 1322822218,
   1537002063, 1747873779, 1955562222, 2024104815, 2227730452, 2361852424,
   2428436474, 2756734187, 3204031479, 3329325298]

def sha256H0 : List Nat :=
  [1779033703, 3144134277, 1013904242, 2773480762,
   1359893119, 2600822924, 528734635, 1541459225]

/-- Pad a byte list per SHA-256: append 0x80, zeros, then the 64-bit big-endian bit length. -/
def sha256Pad (msg : List Nat) : List Nat :=
  let len := msg.length
  let bitLen := 8 * len
  let zeros := (55 + 64 - (len % 64)) % 64
  msg ++ [0x80] ++ List.replicate zeros 0 ++
    ((List.range 8).map (fun i => (bitLen >>> (8 * (7 - i))) &&& 255))

/-- Split into 64-byte chunks; the fuel is the chunk count, so reduction is structural. -/
def chunksGo : Nat → List Nat → List (List Nat)
  | 0, _ => []
  | n + 1, bs => bs.take 64 :: chunksGo n (bs.drop 64)

def chunks64 (bs : List Nat) : List (List Nat) := chunksGo (bs.length / 64) bs

def bytesToWords : List Nat → List Nat
  | b0 :: b1 :: b2 :: b3 :: rest =>
    ((b0 <<< 24) ||| (b1 <<< 16) ||| (b2 <<< 8) ||| b3) :: bytesToWords rest
  | _ => []

def sha256Schedule (w16 : List Nat) : List Nat :=
  (List.range 48).foldl
    (fun w _ =>
      let n := w.length
      let s0 :=
        let x := w.getD (n - 15) 0
        (rotr32 x 7) ^^^ (rotr32 x 18) ^^^ (x >>> 3)
      let s1 :=
        let x := w.getD (n - 2) 0
        (rotr32 x 17) ^^^ (rotr32 x 19) ^^^ (x >>> 10)
      w ++ [(w.getD (n - 16) 0 + s0 + w.getD (n - 7) 0 + s1) &&& mask32])
    w16

def sha256Compress (h : List Nat) (block : List Nat) : List Nat :=
  let w := sha256Schedule (bytesToWords block)
  let st := (List.range 64).foldl
    (fun (st : List Nat) t =>
      match st with
      | [a, b, c, d, e, f, g, hh] =>
        let s1 := (rotr32 e 6) ^^^ (rotr32 e 11) ^^^ (rotr32 e 25)
        let ch := (e &&& f) ^^^ ((e ^^^ mask32) &&& g)
        let t1 := (hh + s1 + ch + sha256K.getD t 0 + w.getD t 0) &&& mask32
        let s0 := (rotr32 a 2) ^^^ (rotr32 a 13) ^^^ (rotr32 a 22)
        let mj := (a &&& b) ^^^ (a &&& c) ^^^ (b &&& c)
        let t2 := (s0 + mj) &&& mask32
        [(t1 + t2) &&& mask32, a, b, c, (d + t1) &&& mask32, e, f, g]
      | s => s)
    h
  List.zipWith (fun x y => (x + y) &&& mask32) h st

def hexChar (n : Nat) : Char :=
  "0123456789abcdef".data.getD n '0'

def toHex8 (n : Nat) : List Char :=
  (List.range 8).map (fun i => hexChar ((n >>> (4 * (7 - i))) &&& 15))

def sha256hexBytes (msg : List Nat) : String :=
  let final := (chunks64 (sha256Pad msg)).foldl sha256Compress sha256H0
  ⟨(final.map toHex8).flatten⟩

/-- UTF-8 encoding of one code point, as Python str.encode produces. -/
def utf8Char (c : Nat) : List Nat :=
  if c < 0x80 then [c]
  else if c < 0x800 then [0xC0 ||| (c >>> 6), 0x80 ||| (c &&& 0x3F)]
  else if c < 0x10000 then
    [0xE0 ||| (c >>> 12), 0x80 ||| ((c >>> 6) &&& 0x3F), 0x80 ||| (c &&& 0x3F)]
  else
    [0xF0 ||| (c >>> 18), 0x80 ||| ((c >>> 12) &&& 0x3F),
     0x80 ||| ((c >>> 6) &&& 0x3F), 0x80 ||| (c &&& 0x3F)]

def utf8Encode (s : String) : List Nat :=
  (s.data.map (fun c => utf8Char c.toNat)).flatten

/-- Model of `hashlib.sha256(s.encode()).hexdigest()`. -/
def sha256hex (s : String) : String := sha256hexBytes (utf8Encode s)

/-- Python string slicing `s[:n]`. -/
def strTake (s : String) (n : Nat) : String := ⟨s.data.take n⟩

/-- Reads a digit list back as (value, place); right fold, so prepending a
digit d to l gives value d * place + value. Used to invert `Nat.repr`. -/
def decValAcc : List Char → Nat × Nat
  | [] => (0, 1)
  | c :: cs =>
    let vp := decValAcc cs
    ((c.toNat - 48) * vp.2 + vp.1, 10 * vp.2)

/-! ## Code-point order on strings (Python string comparison) -/

/-- Python `<=` on strings: lexicographic comparison of code points. -/
def strLeB : List Char → List Char → Bool
  | [], _ => true
  | _ :: _, [] => false
  | a :: as, b :: bs =>
    if a.toNat < b.toNat then true
    else if b.toNat < a.toNat then false
    else strLeB as bs

/-- Order on key-value pairs used by `json.dumps(..., sort_keys=True)`:
compare the keys as Python strings. -/
def keyLe (a b : String × String) : Prop := strLeB a.1.data b.1.data = true

instance : DecidableRel keyLe := fun a b => inferInstanceAs (Decidable (_ = true))

/-- Model of Python `sorted` on dict items keyed by the string key
(`json.dumps(..., sort_keys=True)` serialises items in this order).
`List.insertionSort` is, like Python sort, a stable sort. -/
def sortEntries (l : List (String × String)) : List (String × String) :=
  List.insertionSort keyLe l

/-! ## Python values -/

/-- JSON-like Python values as they appear in context blobs. `other` stands
for a Python object that `json.dumps` cannot serialise (for example a set);
its `truthy` flag records how the object converts to `bool`. -/
inductive PyValue where
  | none
  | bool (b : Bool)
  | int (n : Int)
  | str (s : String)
  | list (xs : List PyValue)
  | dict (entries : List (String × PyValue))
  | other (tag : String) (truthy : Bool)

/-- Python truthiness (`bool(v)`): None, False, 0, "", [] and empty dicts are falsy. -/
def truthy : PyValue → Bool
  | PyValue.none => false
  | PyValue.bool b => b
  | PyValue.int n => n != 0
  | PyValue.str s => s != ""
  | PyValue.list xs => !xs.isEmpty
  | PyValue.dict es => !es.isEmpty
  | PyValue.other _ t => t

mutual
/-- Does `json.dumps` accept the value (no `other` object anywhere)? -/
def serializableV : PyValue → Bool
  | PyValue.none => true
  | PyValue.bool _ => true
  | PyValue.int _ => true
  | PyValue.str _ => true
  | PyValue.list xs => serializableL xs
  | PyValue.dict es => serializableE es
  | PyValue.other _ _ => false

def serializableL : List PyValue → Bool
  | [] => true
  | x :: xs => serializableV x && serializableL xs

def serializableE : List (String × PyValue) → Bool
  | [] => true
  | (_, v) :: es => serializableV v && serializableE es
end

/-- JSON string escaping as `json.dumps(..., ensure_ascii=False)` performs it:
quote, backslash and control characters are escaped, everything else is kept. -/
def jsonEscapeChar (c : Char) : List Char :=
  if c = '"' then ['\\', '"']
  else if c = '\\' then ['\\', '\\']
  else if c = '\n' then ['\\', 'n']
  else if c = '\t' then ['\\', 't']
  else if c = '\r' then ['\\', 'r']
  else if c.toNat = 8 then ['\\', 'b']
  else if c.toNat = 12 then ['\\', 'f']
  else if c.toNat < 32 then
    ['\\', 'u', '0', '0', hexChar (c.toNat / 16), hexChar (c.toNat % 16)]
  else [c]

def jsonQuote (s : String) : String :=
  "\"" ++ ⟨(s.data.map jsonEscapeChar).flatten⟩ ++ "\""

mutual
/-- Model of `json.dumps(v, sort_keys=True, ensure_ascii=False)` (default
separators), used by `CacheManager._hash_context`. Dict items are serialised
in key-sorted order; sorting the serialised items by key equals serialising
the key-sorted items because serialisation is per item and keeps the key.
The `other` case is unreachable under `serializableV` (dumps raises there). -/
def dumpsV : PyValue → String
  | PyValue.none => "null"
  | PyValue.bool true => "true"
  | PyValue.bool false => "false"
  | PyValue.int n => Int.repr n
  | PyValue.str s => jsonQuote s
  | PyValue.list xs => "[" ++ String.intercalate ", " (dumpsL xs) ++ "]"
  | PyValue.dict es =>
    "\x7b" ++
      String.intercalate ", "
        ((sortEntries (dumpsE es)).map (fun kv => jsonQuote kv.1 ++ ": " ++ kv.2)) ++
    "\x7d"
  | PyValue.other _ _ => ""

def dumpsL : List PyValue → List String
  | [] => []
  | x :: xs => dumpsV x :: dumpsL xs

def dumpsE : List (String × PyValue) → List (String × String)
  | [] => []
  | (k, v) :: es => (k, dumpsV v) :: dumpsE es
end

/-- Indentation prefix `'  ' * lvl` of `json.dumps(..., indent=2)`. -/
def ind2 (lvl : Nat) : String := ⟨List.replicate (2 * lvl) ' '⟩

mutual
/-- Model of `json.dumps(v, ensure_ascii=False, indent=2)` (no key sorting),
used by `_build_context_string` for dict/list context values. -/
def dumpsIndentV : PyValue → Nat → String
  | PyValue.none, _ => "null"
  | PyValue.bool true, _ => "true"
  | PyValue.bool false, _ => "false"
  | PyValue.int n, _ => Int.repr n
  | PyValue.str s, _ => jsonQuote s
  | PyValue.list [], _ => "[]"
  | PyValue.list (x :: xs), lvl =>
    "[\n" ++ String.intercalate ",\n" (dumpsIndentL (x :: xs) (lvl + 1)) ++
      "\n" ++ ind2 lvl ++ "]"
  | PyValue.dict [], _ => "\x7b\x7d"
  | PyValue.dict (e :: es), lvl =>
    "\x7b\n" ++ String.intercalate ",\n" (dumpsIndentE (e :: es) (lvl + 1)) ++
      "\n" ++ ind2 lvl ++ "\x7d"
  | PyValue.other _ _, _ => ""

def dumpsIndentL : List PyValue → Nat → List String
  | [], _ => []
  | x :: xs, lvl => (ind2 lvl ++ dumpsIndentV x lvl) :: dumpsIndentL xs lvl

def dumpsIndentE : List (String × PyValue) → Nat → List String
  | [], _ => []
  | (k, v) :: es, lvl =>
    (ind2 lvl ++ jsonQuote k ++ ": " ++ dumpsIndentV v lvl) :: dumpsIndentE es lvl
end

/-- Python `str(value)` for the scalar values reaching it in
`_build_context_string` (dict/list values take the `json.dumps` branch). -/
def pyStr : PyValue → String
  | PyValue.none => "None"
  | PyValue.bool true => "True"
  | PyValue.bool false => "False"
  | PyValue.int n => Int.repr n
  | PyValue.str s => s
  | PyValue.other tag _ => tag
  | v => dumpsV v

/-- Model of `_build_context_string` (routes/mcp.py): the empty dict gives "",
otherwise a header plus one "\n{key}:\n{value}" part per item, joined by "\n". -/
def buildContextString (context_data : List (String × PyValue)) : String :=
  if context_data.isEmpty then ""
  else
    let parts :=
      "以下是相关的上下文信息：\n" ::
        context_data.map (fun kv =>
          let value_str :=
            match kv.2 with
            | PyValue.dict _ => dumpsIndentV kv.2 0
            | PyValue.list _ => dumpsIndentV kv.2 0
            | v => pyStr v
          "\n" ++ kv.1 ++ ":\n" ++ value_str)
    String.intercalate "\n" parts

/-! ## Fingerprint cache (server/cache.py) -/

/-- Python floats are modelled by their `str`/`repr` string: `str` on floats
round-trips, so distinct floats have distinct repr strings, and the code
consumes `temperature` only through `str(temperature)` in the cache key. -/
structure PyFloat where
  repr : String
deriving DecidableEq

/-- Model of `CacheManager._hash_context`: falsy context blobs map to
"empty", unserializable ones to "unhashable", all others to the SHA-256 of
their canonical key-sorted JSON serialisation. -/
def hashContext (context_data : PyValue) : String :=
  if truthy context_data = false then "empty"
  else if serializableV context_data then sha256hex (dumpsV context_data)
  else "unhashable"

/-- Model of `CacheManager._generate_cache_key`. -/
def generateCacheKey (model_id prompt context_hash : String)
    (temperature : PyFloat) (max_tokens : Nat) : String :=
  let prompt_hash := sha256hex prompt
  String.intercalate ":"
    ["wishub_mcp", model_id, strTake prompt_hash 16, context_hash,
     temperature.repr, Nat.repr max_tokens]

/-- The cached response payload `{"response": ..., "tokens_used": ...}`. The
store holds its JSON serialisation; `set`/`get` round-trip it, so the store
is modelled at the payload level and store-level failures (connection errors,
bad serialisations) are `Except.error` outcomes of the client operations. -/
structure CachedPayload where
  response : String
  tokens_used : Nat
deriving DecidableEq

def RedisState := List (String × CachedPayload)

/-- Behaviour of the Redis client calls `get` and `setex` awaited by
`CacheManager.get`/`CacheManager.set`; an `Except.error` is a raised
exception (connection failure, serialisation failure). -/
structure CacheClientOps where
  getOp : RedisState → String → Except String (Option CachedPayload)
  setexOp : RedisState → String → Nat → CachedPayload → Except String RedisState

/-- A healthy Redis: get looks the key up, setex binds it. -/
def workingRedis : CacheClientOps where
  getOp st k := Except.ok (dictFind st k)
  setexOp st k _ v := Except.ok (dictInsert st k v)

/-- `CacheManager.__init__` state: `_client` is `Option.none` when `connect`
failed or was never called. -/
structure CacheManager where
  enabled : Bool
  client : Option CacheClientOps
  default_ttl : Nat := 3600

/-- Model of `CacheManager.get`: disabled or clientless managers miss;
client errors are caught and turned into a miss (`Option.none`). -/
def CacheManager.get (mgr : CacheManager) (st : RedisState)
    (model_id prompt : String) (context_data : PyValue)
    (temperature : PyFloat) (max_tokens : Nat) : Option CachedPayload :=
  if mgr.enabled = false then Option.none
  else
    match mgr.client with
    | Option.none => Option.none
    | Option.some ops =>
      let context_hash := hashContext context_data
      let cache_key := generateCacheKey model_id prompt context_hash temperature max_tokens
      match ops.getOp st cache_key with
      | Except.ok r => r
      | Except.error _ => Option.none

/-- Model of `CacheManager.set`: returns whether the write succeeded plus the
store state; client errors are caught and turned into `false` (no-op).
`ttl or default_ttl` makes a falsy ttl (None or 0) fall back to the default. -/
def CacheManager.set (mgr : CacheManager) (st : RedisState)
    (model_id prompt : String) (context_data : PyValue)
    (temperature : PyFloat) (max_tokens : Nat)
    (response_data : CachedPayload) (ttl : Option Nat) : Bool × RedisState :=
  if mgr.enabled = false then (false, st)
  else
    match mgr.client with
    | Option.none => (false, st)
    | Option.some ops =>
      let context_hash := hashContext context_data
      let cache_key := generateCacheKey model_id prompt context_hash temperature max_tokens
      let ttlVal :=
        match ttl with
        | Option.some t => if t = 0 then mgr.default_ttl else t
        | Option.none => mgr.default_ttl
      match ops.setexOp st cache_key ttlVal response_data with
      | Except.ok st2 => (true, st2)
      | Except.error _ => (false, st)

/-! ## Protocol models (protocol/models.py) -/

inductive ContextType where
  | wisunit
  | knowledge_graph
  | wisdom_core
deriving DecidableEq

def ContextType.value : ContextType → String
  | ContextType.wisunit => "wisunit"
  | ContextType.knowledge_graph => "knowledge_graph"
  | ContextType.wisdom_core => "wisdom_core"

/-- `MCPInvokeRequest` with its pydantic defaults. The bounds checks
(`max_tokens` in [1, 8192], `temperature` in [0, 2]) reject a request before
the pipeline runs and are not needed by the claims below. -/
structure MCPInvokeRequest where
  context_id : String
  model_id : String
  prompt : String
  context_type : ContextType := ContextType.wisunit
  max_tokens : Nat := 2000
  temperature : PyFloat := ⟨"0.7"⟩

structure MCPError where
  code : String
  details : String
deriving DecidableEq

/-- `MCPInvokeResponse`, field for field. Note that models.py declares NO
`cached` field; pydantic v2 models default to ignoring unknown constructor
keywords, so the `cached=True` keyword passed in the cache-hit branch of
`invoke_mcp` is silently dropped and never reaches the wire. -/
structure MCPInvokeResponse where
  status : String
  context : Option (List (String × PyValue)) := Option.none
  response : Option String := Option.none
  tokens_used : Option Nat := Option.none
  message : Option String := Option.none
  error : Option MCPError := Option.none

/-! ## Adapter registry (server/adapters/base.py) -/

/-- Behaviour of one adapter's awaited capabilities for the duration of an
invocation; `Except.error` is a raised exception, `PyExc.runtimeError`
distinguishing `RuntimeError` from any other exception class. -/
inductive PyExc where
  | runtimeError (msg : String)
  | otherExc (msg : String)

structure AdapterBehavior where
  countTokens : String → Except PyExc Nat
  generate : String → PyValue → Nat → PyFloat → Except PyExc String

namespace AIAdapterRegistry

/-- `AIAdapterRegistry.register`: plain dict assignment. -/
def register (adapters : List (String × AdapterBehavior)) (model_id : String)
    (adapter : AdapterBehavior) : List (String × AdapterBehavior) :=
  dictInsert adapters model_id adapter

/-- `AIAdapterRegistry.get`: raises `ValueError` when the model is unbound. -/
def get (adapters : List (String × AdapterBehavior)) (model_id : String) :
    Except String AdapterBehavior :=
  match dictFind adapters model_id with
  | Option.some a => Except.ok a
  | Option.none => Except.error ("Unsupported model: " ++ model_id)

/-- `AIAdapterRegistry.list_models`: the dict keys in insertion order. -/
def list_models (adapters : List (String × AdapterBehavior)) : List String :=
  adapters.map Prod.fst

end AIAdapterRegistry

/-! ## The invocation pipeline (server/routes/mcp.py, invoke_mcp) -/

/-- One `record_ai_invocation` call: the metric is tagged with the model id
and an outcome status (the latency value itself carries no information the
claims speak about). -/
structure MetricRecord where
  model : String
  status : String
deriving DecidableEq

/-- The environment one invocation runs against: the registry contents, the
outcome of the context fetch, the global cache manager (None when
`init_cache` never ran) and the Redis store contents. -/
structure InvokeEnv where
  registry : List (String × AdapterBehavior)
  contextResult : Except PyExc (List (String × PyValue))
  cacheMgr : Option CacheManager
  redis : RedisState

/-- Everything observable about one `invoke_mcp` call: the returned response,
the `record_ai_invocation` calls in order, how often the adapter's `generate`
and `count_tokens` were awaited, and the Redis store afterwards. -/
structure InvokeOutcome where
  response : MCPInvokeResponse
  metrics : List MetricRecord
  generateCalls : Nat
  countTokensCalls : Nat
  redis : RedisState

/-- Stage 3 guard in the route: `if cache_manager and cache_manager.enabled:`
then `await cache_manager.get(...)`. -/
def routeCacheGet (mgrOpt : Option CacheManager) (st : RedisState)
    (req : MCPInvokeRequest) (context_data : PyValue) : Option CachedPayload :=
  match mgrOpt with
  | Option.none => Option.none
  | Option.some mgr =>
    if mgr.enabled then
      CacheManager.get mgr st req.model_id req.prompt context_data
        req.temperature req.max_tokens
    else Option.none

/-- Stage 6 write-through: `if cache_manager and cache_manager.enabled:` then
`await cache_manager.set(...)`; a failed set leaves the store unchanged. -/
def routeCacheSet (mgrOpt : Option CacheManager) (st : RedisState)
    (req : MCPInvokeRequest) (context_data : PyValue)
    (response_data : CachedPayload) : RedisState :=
  match mgrOpt with
  | Option.none => st
  | Option.some mgr =>
    if mgr.enabled then
      (CacheManager.set mgr st req.model_id req.prompt context_data
        req.temperature req.max_tokens response_data Option.none).2
    else st

/-- Stages 4-7 of `invoke_mcp`, reached on a cache miss.

Stage 4 keeps exact track of whether the local `prompt_tokens` was assigned:
when `count_tokens(request.prompt)` raises, the handler sets
`total_input_tokens = 0` and the pipeline continues, but `prompt_tokens`
stays unbound, and the later success-path metric call
`record_ai_invocation(..., prompt_tokens=prompt_tokens, ...)` raises
`UnboundLocalError` inside the stage-6 `try`, which downgrades the finished
invocation to an `MCP_999` error response (after the cache write).

Stage 5 compares `total_input_tokens > request.max_tokens * 0.9`; for the
admissible range 1 <= max_tokens <= 8192 the Python double comparison agrees
with the exact rational comparison `10 * total > 9 * max` used here. -/
def afterMiss (adapter : AdapterBehavior) (req : MCPInvokeRequest)
    (ctxEntries : List (String × PyValue)) (mgrOpt : Option CacheManager)
    (st : RedisState) : InvokeOutcome :=
  let context_data := PyValue.dict ctxEntries
  let context_str := buildContextString ctxEntries
  let tokenCount : Option Nat × Nat × Nat :=
    match adapter.countTokens req.prompt with
    | Except.error _ => (Option.none, 0, 1)
    | Except.ok pt =>
      match adapter.countTokens context_str with
      | Except.error _ => (Option.some pt, 0, 2)
      | Except.ok ct => (Option.some pt, pt + ct, 2)
  match tokenCount with
  | (prompt_tokens, total_input_tokens, ctCalls) =>
    if 10 * total_input_tokens > 9 * req.max_tokens then
      { response :=
          { status := "error",
            message := Option.some ("输入过长（Token 数量: " ++ Nat.repr total_input_tokens ++ "）"),
            error := Option.some
              ⟨"MCP_003",
               "输入 Token 数量: " ++ Nat.repr total_input_tokens ++
                 ", 最大限制: " ++ Nat.repr req.max_tokens⟩ },
        metrics := [], generateCalls := 0, countTokensCalls := ctCalls, redis := st }
    else
      match adapter.generate req.prompt context_data req.max_tokens req.temperature with
      | Except.error (PyExc.runtimeError m) =>
        { response :=
            { status := "error",
              message := Option.some ("AI 模型调用失败: " ++ m),
              error := Option.some ⟨"MCP_999", m⟩ },
          metrics := [⟨req.model_id, "error"⟩],
          generateCalls := 1, countTokensCalls := ctCalls, redis := st }
      | Except.error (PyExc.otherExc m) =>
        { response :=
            { status := "error",
              message := Option.some "生成响应失败",
              error := Option.some ⟨"MCP_999", m⟩ },
          metrics := [⟨req.model_id, "error"⟩],
          generateCalls := 1, countTokensCalls := ctCalls, redis := st }
      | Except.ok response_text =>
        match adapter.countTokens response_text with
        | Except.error (PyExc.runtimeError m) =>
          { response :=
              { status := "error",
                message := Option.some ("AI 模型调用失败: " ++ m),
                error := Option.some ⟨"MCP_999", m⟩ },
            metrics := [⟨req.model_id, "error"⟩],
            generateCalls := 1, countTokensCalls := ctCalls + 1, redis := st }
        | Except.error (PyExc.otherExc m) =>
          { response :=
              { status := "error",
                message := Option.some "生成响应失败",
                error := Option.some ⟨"MCP_999", m⟩ },
            metrics := [⟨req.model_id, "error"⟩],
            generateCalls := 1, countTokensCalls := ctCalls + 1, redis := st }
        | Except.ok output_tokens =>
          let total_tokens := total_input_tokens + output_tokens
          let st2 := routeCacheSet mgrOpt st req context_data
            ⟨response_text, total_tokens⟩
          match prompt_tokens with
          | Option.none =>
            { response :=
                { status := "error",
                  message := Option.some "生成响应失败",
                  error := Option.some
                    ⟨"MCP_999",
                     "cannot access local variable prompt_tokens where it is not associated with a value"⟩ },
              metrics := [⟨req.model_id, "error"⟩],
              generateCalls := 1, countTokensCalls := ctCalls + 1, redis := st2 }
          | Option.some _ =>
            { response :=
                { status := "success",
                  context := Option.some ctxEntries,
                  response := Option.some response_text,
                  tokens_used := Option.some total_tokens },
              metrics := [⟨req.model_id, "success"⟩],
              generateCalls := 1, countTokensCalls := ctCalls + 1, redis := st2 }

/-- Model of `invoke_mcp`, stage by stage. Stages 1 and 2 terminate without
recording any metric; a cache hit answers from the store (note: no `cached`
field survives into `MCPInvokeResponse`), records a "cached" metric, and
skips token counting and generation entirely. -/
def invoke (env : InvokeEnv) (req : MCPInvokeRequest) : InvokeOutcome :=
  match AIAdapterRegistry.get env.registry req.model_id with
  | Except.error e =>
    { response :=
        { status := "error",
          message := Option.some ("不支持的模型: " ++ req.model_id),
          error := Option.some ⟨"MCP_002", e⟩ },
      metrics := [], generateCalls := 0, countTokensCalls := 0, redis := env.redis }
  | Except.ok adapter =>
    match env.contextResult with
    | Except.error (PyExc.runtimeError m) =>
      { response :=
          { status := "error",
            message := Option.some ("获取上下文失败: " ++ m),
            error := Option.some ⟨"MCP_001", m⟩ },
        metrics := [], generateCalls := 0, countTokensCalls := 0, redis := env.redis }
    | Except.error (PyExc.otherExc m) =>
      { response :=
          { status := "error",
            message := Option.some "获取上下文失败",
            error := Option.some ⟨"MCP_001", m⟩ },
        metrics := [], generateCalls := 0, countTokensCalls := 0, redis := env.redis }
    | Except.ok ctxEntries =>
      let context_data := PyValue.dict ctxEntries
      match routeCacheGet env.cacheMgr env.redis req context_data with
      | Option.some cached_response =>
        { response :=
            { status := "success",
              context := Option.some ctxEntries,
              response := Option.some cached_response.response,
              tokens_used := Option.some cached_response.tokens_used },
          metrics := [⟨req.model_id, "cached"⟩],
          generateCalls := 0, countTokensCalls := 0, redis := env.redis }
      | Option.none =>
        afterMiss adapter req ctxEntries env.cacheMgr env.redis

/-! ## API-key verification (server/routes/mcp.py, verify_api_key) -/

inductive AuthOutcome where
  | validationError
  | unauthorized
  | authorized (key : String)
deriving DecidableEq

/-- Model of the `verify_api_key` dependency. The parameter is declared
`x_api_key: str = Header(..., alias="X-API-Key")`: the Ellipsis default makes
the header REQUIRED at the FastAPI layer, so a request without it is rejected
with a 422 validation error before the dependency body runs, whatever
`AUTH_REQUIRED` says. An empty header value reaches the body and is rejected
401 exactly when `settings.AUTH_REQUIRED` holds. -/
def verifyApiKey (auth_required : Bool) (x_api_key : Option String) : AuthOutcome :=
  match x_api_key with
  | Option.none => AuthOutcome.validationError
  | Option.some v =>
    if auth_required && (v == "") then AuthOutcome.unauthorized
    else AuthOutcome.authorized v

/-! ## Health checks (monitoring/health.py) -/

inductive HealthStatus where
  | HEALTHY
  | UNHEALTHY
  | DEGRADED
deriving DecidableEq

def HealthStatus.value : HealthStatus → String
  | HealthStatus.HEALTHY => "healthy"
  | HealthStatus.UNHEALTHY => "unhealthy"
  | HealthStatus.DEGRADED => "degraded"

/-- The `to_dict` image of a `DependencyHealth` that `perform_health_checks`
stores per dependency; latency carries no information the claims speak about. -/
structure DepDict where
  status : String
  message : String
deriving DecidableEq

/-- Outcome of the probe `check_wishub_core` performs. -/
inductive CoreProbe where
  | status (code : Nat)
  | timeoutExc
  | failure (msg : String)

/-- Model of `check_redis`: a successful ping is healthy, a raised exception
unhealthy. -/
def checkRedis (ping : Except String Unit) : DepDict :=
  match ping with
  | Except.ok _ => { status := HealthStatus.HEALTHY.value, message := "" }
  | Except.error e => { status := HealthStatus.UNHEALTHY.value, message := e }

/-- Model of `check_wishub_core`: HTTP 200 is healthy; any other status,
timeout or exception is unhealthy. -/
def checkWishubCore (probe : CoreProbe) : DepDict :=
  match probe with
  | CoreProbe.status c =>
    if c = 200 then { status := HealthStatus.HEALTHY.value, message := "" }
    else
      { status := HealthStatus.UNHEALTHY.value,
        message := "Status code: " ++ Nat.repr c }
  | CoreProbe.timeoutExc =>
    { status := HealthStatus.UNHEALTHY.value, message := "Connection timed out" }
  | CoreProbe.failure e =>
    { status := HealthStatus.UNHEALTHY.value, message := e }

/-- Model of `perform_health_checks`: always checks Redis, checks the core
service only when its URL is truthy (nonempty). -/
def performHealthChecks (ping : Except String Unit) (wishub_core_url : String)
    (probe : CoreProbe) : List (String × DepDict) :=
  [("redis", checkRedis ping)] ++
    (if wishub_core_url != "" then [("wishub_core", checkWishubCore probe)] else [])

/-- Model of `get_overall_status`. -/
def getOverallStatus (dependencies : List (String × DepDict)) : HealthStatus :=
  let statuses := dependencies.map (fun kv => kv.2.status)
  if statuses.all (fun s => s == HealthStatus.HEALTHY.value) then HealthStatus.HEALTHY
  else if statuses.any (fun s => s == HealthStatus.UNHEALTHY.value) then HealthStatus.UNHEALTHY
  else HealthStatus.DEGRADED

/-! ## Concrete scenarios used to evaluate the pipeline -/

/-- The mock adapter of tests/test_mcp_api.py: `count_tokens` counts (here:
characters, the unit is irrelevant) and `generate` returns a fixed answer. -/
def mockAdapter : AdapterBehavior where
  countTokens t := Except.ok t.length
  generate _ _ _ _ := Except.ok "这是 AI 生成的回答"

/-- An adapter whose `count_tokens` raises on the request prompt but succeeds
on every other text, while `generate` succeeds. -/
def failTokAdapter : AdapterBehavior where
  countTokens t :=
    if t == "测试问题" then Except.error (PyExc.otherExc "tokenizer failure")
    else Except.ok t.length
  generate _ _ _ _ := Except.ok "这是 AI 生成的回答"

/-- An adapter whose token estimate always exceeds any admissible budget. -/
def hugeTokAdapter : AdapterBehavior where
  countTokens _ := Except.ok 10000
  generate _ _ _ _ := Except.ok "这是 AI 生成的回答"

/-- A Redis client whose every operation raises (connection refused). -/
def failingRedis : CacheClientOps where
  getOp _ _ := Except.error "connection refused"
  setexOp _ _ _ _ := Except.error "connection refused"

def sampleCtx : List (String × PyValue) :=
  [("wisunit_id", PyValue.str "test_001"), ("content", PyValue.str "这是测试上下文内容")]

def sampleReq : MCPInvokeRequest :=
  { context_id := "test_001", model_id := "gpt-4", prompt := "测试问题" }

/-- Environment with a working, enabled cache and an empty store. -/
def cacheOnEnv : InvokeEnv where
  registry := [("gpt-4", mockAdapter)]
  contextResult := Except.ok sampleCtx
  cacheMgr := Option.some { enabled := true, client := Option.some workingRedis }
  redis := []

/-- First of two sequential identical invocations. -/
def run1 : InvokeOutcome := invoke cacheOnEnv sampleReq

/-- Second identical invocation, against the store the first one left. -/
def run2 : InvokeOutcome := invoke { cacheOnEnv with redis := run1.redis } sampleReq

/-- Environment like `cacheOnEnv` but whose Redis client raises on every
operation. -/
def failCacheEnv : InvokeEnv where
  registry := [("gpt-4", mockAdapter)]
  contextResult := Except.ok sampleCtx
  cacheMgr := Option.some { enabled := true, client := Option.some failingRedis }
  redis := []

/-- Environment whose registry does not bind the requested model. -/
def noModelEnv : InvokeEnv where
  registry := []
  contextResult := Except.ok sampleCtx
  cacheMgr := Option.none
  redis := []

/-- Environment for the count-tokens-failure scenario (no cache). -/
def failTokEnv : InvokeEnv where
  registry := [("gpt-4", failTokAdapter)]
  contextResult := Except.ok sampleCtx
  cacheMgr := Option.none
  redis := []

/-- Environment for the token-budget-exceeded scenario (no cache). -/
def budgetEnv : InvokeEnv where
  registry := [("gpt-4", hugeTokAdapter)]
  contextResult := Except.ok sampleCtx
  cacheMgr := Option.none
  redis := []

/-! ## Supporting lemmas: the code-point order and key-sorted serialisation -/

theorem charToNat_inj {a b : Char} (h : a.toNat = b.toNat) : a = b :=
  Char.eq_of_val_eq (UInt32.ext h)

theorem strLeB_total : ∀ a b : List Char, strLeB a b = true ∨ strLeB b a = true := by
  intro a
  induction a with
  | nil => intro b; left; cases b <;> rfl
  | cons x as ih =>
    intro b
    cases b with
    | nil => right; rfl
    | cons y bs =>
      simp only [strLeB]
      rcases Nat.lt_trichotomy x.toNat y.toNat with h | h | h
      · left; simp [h]
      · have h1 : ¬x.toNat < y.toNat := by omega
        have h2 : ¬y.toNat < x.toNat := by omega
        simpa [h1, h2] using ih bs
      · right; simp [h]

theorem strLeB_trans : ∀ a b c : List Char,
    strLeB a b = true → strLeB b c = true → strLeB a c = true := by
  intro a
  induction a with
  | nil => intro b c _ _; cases c <;> rfl
  | cons x as ih =>
    intro b c hab hbc
    cases b with
    | nil => simp [strLeB] at hab
    | cons y bs =>
      cases c with
      | nil => simp [strLeB] at hbc
      | cons z cs =>
        simp only [strLeB] at hab hbc ⊢
        by_cases hxy : x.toNat < y.toNat <;>
          by_cases hyx : y.toNat < x.toNat <;>
          by_cases hyz : y.toNat < z.toNat <;>
          by_cases hzy : z.toNat < y.toNat <;>
          simp_all <;>
          by_cases hxz : x.toNat < z.toNat <;>
          by_cases hzx : z.toNat < x.toNat <;>
          simp_all <;>
          first
          | omega
          | (apply ih bs <;> assumption)
          | (have hx : x = y := charToNat_inj (by omega)
             have hz : z = y := charToNat_inj (by omega)
             subst hx
             subst hz
             first
             | exact ih bs cs hab hbc
             | exact Or.inr (ih bs cs hab hbc))

theorem strLeB_antisymm : ∀ a b : List Char,
    strLeB a b = true → strLeB b a = true → a = b := by
  intro a
  induction a with
  | nil => intro b _ hba; cases b with
    | nil => rfl
    | cons y bs => simp [strLeB] at hba
  | cons x as ih =>
    intro b hab hba
    cases b with
    | nil => simp [strLeB] at hab
    | cons y bs =>
      simp only [strLeB] at hab hba
      by_cases hxy : x.toNat < y.toNat <;>
        by_cases hyx : y.toNat < x.toNat <;>
        simp_all
      · omega
      · have hx : x = y := charToNat_inj (by omega)
        subst hx
        exact ⟨rfl, ih bs hab hba⟩

theorem sortEntries_perm (l : List (String × String)) : (sortEntries l).Perm l :=
  List.perm_insertionSort keyLe l

theorem sortEntries_sorted (l : List (String × String)) :
    List.Sorted keyLe (sortEntries l) := by
  haveI : IsTotal (String × String) keyLe :=
    ⟨fun a b => strLeB_total a.1.data b.1.data⟩
  haveI : IsTrans (String × String) keyLe :=
    ⟨fun a b c => strLeB_trans a.1.data b.1.data c.1.data⟩
  exact List.sorted_insertionSort keyLe l

/-- Sorting dict items by key is a canonical form: two permutations of the
same items with pairwise distinct keys sort identically. -/
theorem sortEntries_canonical {l1 l2 : List (String × String)}
    (hperm : l1.Perm l2) (hnd : (l1.map Prod.fst).Nodup) :
    sortEntries l1 = sortEntries l2 := by
  have hnd2 : (l2.map Prod.fst).Nodup := (hperm.map Prod.fst).nodup hnd
  have key_ne : ∀ l : List (String × String), (l.map Prod.fst).Nodup →
      List.Pairwise (fun a b : String × String => a.1 ≠ b.1) (sortEntries l) := by
    intro l hl
    have h1 : ((sortEntries l).map Prod.fst).Nodup :=
      ((sortEntries_perm l).map Prod.fst).symm.nodup hl
    rw [List.Nodup, List.pairwise_map] at h1
    exact h1
  have hs1 := (sortEntries_sorted l1).and (key_ne l1 hnd)
  have hs2 := (sortEntries_sorted l2).and (key_ne l2 hnd2)
  haveI : IsAntisymm (String × String)
      (fun a b => keyLe a b ∧ a.1 ≠ b.1) := by
    constructor
    intro a b hab hba
    exact absurd (String.ext (strLeB_antisymm _ _ hab.1 hba.1)) hab.2
  exact List.eq_of_perm_of_sorted
    ((sortEntries_perm l1).trans (hperm.trans (sortEntries_perm l2).symm)) hs1 hs2

/-! ## Supporting lemmas: canonical serialisation under key reordering -/

theorem dumpsE_eq_map (es : List (String × PyValue)) :
    dumpsE es = es.map (fun kv => (kv.1, dumpsV kv.2)) := by
  induction es with
  | nil => rfl
  | cons e es ih => cases e; simp [dumpsE, ih]

theorem serializableE_eq_all (es : List (String × PyValue)) :
    serializableE es = es.all (fun kv => serializableV kv.2) := by
  induction es with
  | nil => rfl
  | cons e es ih => cases e; simp [serializableE, ih]

theorem serializableE_of_perm {es1 es2 : List (String × PyValue)}
    (hperm : es1.Perm es2) : serializableE es1 = serializableE es2 := by
  rw [serializableE_eq_all, serializableE_eq_all]
  rcases h1 : es1.all (fun kv => serializableV kv.2) with _ | _
  · rcases h2 : es2.all (fun kv => serializableV kv.2) with _ | _
    · rfl
    · rw [List.all_eq_true] at h2
      have : es1.all (fun kv => serializableV kv.2) = true := by
        rw [List.all_eq_true]
        intro x hx
        exact h2 x (hperm.mem_iff.mp hx)
      rw [h1] at this
      exact this
  · rw [List.all_eq_true] at h1
    have : es2.all (fun kv => serializableV kv.2) = true := by
      rw [List.all_eq_true]
      intro x hx
      exact h1 x (hperm.mem_iff.mpr hx)
    exact this.symm

theorem dumpsE_map_fst (es : List (String × PyValue)) :
    (dumpsE es).map Prod.fst = es.map Prod.fst := by
  rw [dumpsE_eq_map, List.map_map]
  rfl

theorem dumpsV_dict_of_perm {es1 es2 : List (String × PyValue)}
    (hperm : es1.Perm es2) (hnd : (es1.map Prod.fst).Nodup) :
    dumpsV (PyValue.dict es1) = dumpsV (PyValue.dict es2) := by
  have hsort : sortEntries (dumpsE es1) = sortEntries (dumpsE es2) := by
    apply sortEntries_canonical
    · rw [dumpsE_eq_map, dumpsE_eq_map]
      exact hperm.map _
    · rw [dumpsE_map_fst]
      exact hnd
  simp only [dumpsV, hsort]

theorem truthy_dict_of_perm {es1 es2 : List (String × PyValue)}
    (hperm : es1.Perm es2) :
    truthy (PyValue.dict es1) = truthy (PyValue.dict es2) := by
  simp only [truthy]
  cases es1 with
  | nil => cases es2 with
    | nil => rfl
    | cons b bs => exact absurd (hperm.symm.eq_nil) (by simp)
  | cons a as => cases es2 with
    | nil => exact absurd hperm.eq_nil (by simp)
    | cons b bs => rfl

/-- `_hash_context` is insensitive to the insertion order of dict keys. -/
theorem hashContext_dict_of_perm {es1 es2 : List (String × PyValue)}
    (hperm : es1.Perm es2) (hnd : (es1.map Prod.fst).Nodup) :
    hashContext (PyValue.dict es1) = hashContext (PyValue.dict es2) := by
  simp only [hashContext, truthy_dict_of_perm hperm]
  simp only [serializableV, serializableE_of_perm hperm]
  rw [dumpsV_dict_of_perm hperm hnd]

/-! ## Supporting lemmas: injectivity of the decimal representation -/

theorem digitChar_toNat (d : Nat) (hd : d < 10) : (Nat.digitChar d).toNat = 48 + d := by
  interval_cases d <;> rfl

theorem toDigitsCore_decVal : ∀ (f n : Nat) (l : List Char), n < f →
    (decValAcc (Nat.toDigitsCore 10 f n l)).1
      = n * (decValAcc l).2 + (decValAcc l).1 := by
  intro f
  induction f with
  | zero => intro n l hn; omega
  | succ f ih =>
    intro n l hn
    simp only [Nat.toDigitsCore]
    by_cases h : n / 10 = 0
    · have hn10 : n < 10 := by omega
      have hmod : n % 10 = n := Nat.mod_eq_of_lt hn10
      rw [if_pos h, hmod]
      simp only [decValAcc]
      rw [digitChar_toNat n hn10]
      have h48 : 48 + n - 48 = n := by omega
      rw [h48]
    · have hpos : 0 < n := by
        rcases Nat.eq_zero_or_pos n with h0 | h0
        · exact absurd (by simp [h0]) h
        · exact h0
      have hten : (1 : Nat) < 10 := by omega
      have hlt : n / 10 < f := by
        have hd := Nat.div_lt_self hpos hten
        omega
      rw [if_neg h, ih (n / 10) (Nat.digitChar (n % 10) :: l) hlt]
      simp only [decValAcc]
      rw [digitChar_toNat (n % 10) (Nat.mod_lt _ (by omega))]
      have hexp : (n / 10) * (10 * (decValAcc l).2) +
          ((48 + n % 10 - 48) * (decValAcc l).2 + (decValAcc l).1)
            = (10 * (n / 10) + n % 10) * (decValAcc l).2 + (decValAcc l).1 := by
        have h48 : 48 + n % 10 - 48 = n % 10 := by omega
        rw [h48]
        ring
      rw [hexp, Nat.div_add_mod]

theorem natRepr_decVal (n : Nat) : (decValAcc (Nat.repr n).data).1 = n := by
  have h : (Nat.repr n).data = Nat.toDigitsCore 10 (n + 1) n [] := by
    simp [Nat.repr, Nat.toDigits, List.asString]
  rw [h, toDigitsCore_decVal (n + 1) n [] (by omega)]
  simp [decValAcc]

theorem natRepr_inj {m n : Nat} (h : Nat.repr m = Nat.repr n) : m = n := by
  have hm := natRepr_decVal m
  rw [h, natRepr_decVal] at hm
  exact hm.symm

/-! ## Supporting lemmas: cache-key decomposition -/

theorem strData_append (s t : String) : (s ++ t).data = s.data ++ t.data := by
  simp [String.data]

theorem generateCacheKey_data (m p ch : String) (t : PyFloat) (mt : Nat) :
    (generateCacheKey m p ch t mt).data
      = "wishub_mcp:".data ++ (m.data ++ (":".data ++ ((strTake (sha256hex p) 16).data
         ++ (":".data ++ (ch.data ++ (":".data ++ (t.repr.data
         ++ (":".data ++ (Nat.repr mt).data)))))))) := by
  simp [generateCacheKey, String.intercalate, String.intercalate.go, strData_append,
    List.append_assoc]

theorem listMidCancel {pre suf x y : List Char}
    (h : pre ++ (x ++ suf) = pre ++ (y ++ suf)) : x = y :=
  List.append_cancel_right (List.append_cancel_left h)

/-! ## Supporting lemmas: Python dict update -/

theorem dictInsert_map_fst {α : Type} (l : List (String × α)) (k : String) (v : α) :
    (dictInsert l k v).map Prod.fst
      = if (l.map Prod.fst).contains k then l.map Prod.fst
        else l.map Prod.fst ++ [k] := by
  induction l with
  | nil => simp [dictInsert]
  | cons p rest ih =>
    obtain ⟨k', w⟩ := p
    by_cases hk : k' = k
    · subst hk
      simp [dictInsert]
    · simp only [dictInsert, if_neg hk, List.map_cons, List.contains_cons]
      have hbeq : (k == k') = false := by
        simp [hk]
        intro hkk
        exact hk hkk.symm
      rw [hbeq]
      simp only [Bool.false_or]
      rw [ih]
      split <;> simp

theorem dictFind_dictInsert_self {α : Type} (l : List (String × α)) (k : String) (v : α) :
    dictFind (dictInsert l k v) k = Option.some v := by
  induction l with
  | nil => simp [dictInsert, dictFind]
  | cons p rest ih =>
    obtain ⟨k', w⟩ := p
    by_cases hk : k' = k
    · subst hk
      simp [dictInsert, dictFind]
    · simp [dictInsert, dictFind, hk, ih]

/-! ## Claim theorems -/

/-- C4: for identical (model id, prompt, context key/value content,
temperature, max tokens), the cache fingerprint is identical even when the
context dict presents the same keys in a different insertion order (canonical
key-sorted serialisation); a falsy ("empty") context blob always maps to the
sentinel "empty" and an unserializable one to "unhashable" instead of
failing. -/
theorem C4_fingerprint_canonicalisation :
    (∀ (m p : String) (t : PyFloat) (mt : Nat) (es1 es2 : List (String × PyValue)),
      es1.Perm es2 → (es1.map Prod.fst).Nodup →
      generateCacheKey m p (hashContext (PyValue.dict es1)) t mt
        = generateCacheKey m p (hashContext (PyValue.dict es2)) t mt) ∧
    (∀ v : PyValue, truthy v = false → hashContext v = "empty") ∧
    (∀ v : PyValue, truthy v = true → serializableV v = false →
      hashContext v = "unhashable") := by
  refine ⟨?_, ?_, ?_⟩
  · intro m p t mt es1 es2 hperm hnd
    rw [hashContext_dict_of_perm hperm hnd]
  · intro v hv
    simp [hashContext, hv]
  · intro v hv hs
    simp [hashContext, hv, hs]

/-- Witness for C4 at concrete inputs: a two-key context dict and its
swapped presentation share a fingerprint; None maps to "empty"; a Python set
maps to "unhashable". -/
theorem C4_fingerprint_canonicalisation_witness :
    generateCacheKey "gpt-4" "你好"
        (hashContext (PyValue.dict [("a", PyValue.int 1), ("b", PyValue.str "x")]))
        ⟨"0.7"⟩ 2000
      = generateCacheKey "gpt-4" "你好"
          (hashContext (PyValue.dict [("b", PyValue.str "x"), ("a", PyValue.int 1)]))
          ⟨"0.7"⟩ 2000 ∧
    hashContext PyValue.none = "empty" ∧
    hashContext (PyValue.other "set()" true) = "unhashable" :=
  ⟨C4_fingerprint_canonicalisation.1 "gpt-4" "你好" ⟨"0.7"⟩ 2000 _ _
      (List.Perm.swap ("b", PyValue.str "x") ("a", PyValue.int 1) [])
      (by decide),
   C4_fingerprint_canonicalisation.2.1 PyValue.none rfl,
   C4_fingerprint_canonicalisation.2.2 (PyValue.other "set()" true) rfl rfl⟩

/-- C6 counterexample: two different context blobs — Python None and the
empty dict — are both falsy, so both hash to the sentinel "empty" and yield
the SAME fingerprint although one input changed; "changing any one input
changes the fingerprint" is false on the code. -/
theorem C6_counterexample_falsy_contexts_share_fingerprint :
    PyValue.none ≠ PyValue.dict [] ∧
    hashContext PyValue.none = hashContext (PyValue.dict []) ∧
    generateCacheKey "gpt-4" "测试问题" (hashContext PyValue.none) ⟨"0.7"⟩ 2000
      = generateCacheKey "gpt-4" "测试问题" (hashContext (PyValue.dict [])) ⟨"0.7"⟩ 2000 := by
  have ha : hashContext PyValue.none = "empty" := rfl
  have hb : hashContext (PyValue.dict []) = "empty" := rfl
  have h2 : hashContext PyValue.none = hashContext (PyValue.dict []) := ha.trans hb.symm
  refine ⟨?_, h2, by rw [h2]⟩
  intro h
  cases h

/-- C6 (amended): changing the model id, the temperature or the max-tokens
value alone always changes the fingerprint; changing the prompt alone changes
it whenever the 16-character truncations of the prompt hashes differ, and
changing the context blob alone changes it whenever the context hashes
differ (distinct falsy blobs, distinct unserializable blobs, and truncated- or
full-hash collisions are the exceptions the sentinel construction forces). -/
theorem C6_fingerprint_sensitivity :
    (∀ (m m' p ch : String) (t : PyFloat) (mt : Nat), m ≠ m' →
      generateCacheKey m p ch t mt ≠ generateCacheKey m' p ch t mt) ∧
    (∀ (m p p' ch : String) (t : PyFloat) (mt : Nat),
      strTake (sha256hex p) 16 ≠ strTake (sha256hex p') 16 →
      generateCacheKey m p ch t mt ≠ generateCacheKey m p' ch t mt) ∧
    (∀ (m p ch ch' : String) (t : PyFloat) (mt : Nat), ch ≠ ch' →
      generateCacheKey m p ch t mt ≠ generateCacheKey m p ch' t mt) ∧
    (∀ (m p ch : String) (t t' : PyFloat) (mt : Nat), t ≠ t' →
      generateCacheKey m p ch t mt ≠ generateCacheKey m p ch t' mt) ∧
    (∀ (m p ch : String) (t : PyFloat) (mt mt' : Nat), mt ≠ mt' →
      generateCacheKey m p ch t mt ≠ generateCacheKey m p ch t mt') := by
  refine ⟨?_, ?_, ?_, ?_, ?_⟩
  · intro m m' p ch t mt hne heq
    have hd := congrArg String.data heq
    rw [generateCacheKey_data, generateCacheKey_data] at hd
    exact hne (String.ext (List.append_cancel_right (List.append_cancel_left hd)))
  · intro m p p' ch t mt hne heq
    have hd := congrArg String.data heq
    rw [generateCacheKey_data, generateCacheKey_data] at hd
    have h1 := List.append_cancel_left (List.append_cancel_left
      (List.append_cancel_left hd))
    exact hne (String.ext (List.append_cancel_right h1))
  · intro m p ch ch' t mt hne heq
    have hd := congrArg String.data heq
    rw [generateCacheKey_data, generateCacheKey_data] at hd
    have h1 := List.append_cancel_left (List.append_cancel_left
      (List.append_cancel_left (List.append_cancel_left (List.append_cancel_left hd))))
    exact hne (String.ext (List.append_cancel_right h1))
  · intro m p ch t t' mt hne heq
    have hd := congrArg String.data heq
    rw [generateCacheKey_data, generateCacheKey_data] at hd
    have h1 := List.append_cancel_left (List.append_cancel_left
      (List.append_cancel_left (List.append_cancel_left (List.append_cancel_left
        (List.append_cancel_left (List.append_cancel_left hd))))))
    have h2 : t.repr = t'.repr := String.ext (List.append_cancel_right h1)
    obtain ⟨ts⟩ := t
    obtain ⟨ts'⟩ := t'
    simp only at h2
    subst h2
    exact hne rfl
  · intro m p ch t mt mt' hne heq
    have hd := congrArg String.data heq
    rw [generateCacheKey_data, generateCacheKey_data] at hd
    have h1 := List.append_cancel_left (List.append_cancel_left
      (List.append_cancel_left (List.append_cancel_left (List.append_cancel_left
        (List.append_cancel_left (List.append_cancel_left
          (List.append_cancel_left (List.append_cancel_left hd))))))))
    exact hne (natRepr_inj (String.ext h1))

set_option maxRecDepth 400000 in
/-- Witness for C6 at concrete inputs, one changed coordinate per conjunct. -/
theorem C6_fingerprint_sensitivity_witness :
    generateCacheKey "gpt-4" "p" "empty" ⟨"0.7"⟩ 2000
      ≠ generateCacheKey "glm-4" "p" "empty" ⟨"0.7"⟩ 2000 ∧
    generateCacheKey "gpt-4" "a" "empty" ⟨"0.7"⟩ 2000
      ≠ generateCacheKey "gpt-4" "b" "empty" ⟨"0.7"⟩ 2000 ∧
    generateCacheKey "gpt-4" "p" "empty" ⟨"0.7"⟩ 2000
      ≠ generateCacheKey "gpt-4" "p" "unhashable" ⟨"0.7"⟩ 2000 ∧
    generateCacheKey "gpt-4" "p" "empty" ⟨"0.7"⟩ 2000
      ≠ generateCacheKey "gpt-4" "p" "empty" ⟨"0.8"⟩ 2000 ∧
    generateCacheKey "gpt-4" "p" "empty" ⟨"0.7"⟩ 2000
      ≠ generateCacheKey "gpt-4" "p" "empty" ⟨"0.7"⟩ 2001 :=
  ⟨C6_fingerprint_sensitivity.1 "gpt-4" "glm-4" "p" "empty" ⟨"0.7"⟩ 2000 (by decide),
   C6_fingerprint_sensitivity.2.1 "gpt-4" "a" "b" "empty" ⟨"0.7"⟩ 2000 (by decide),
   C6_fingerprint_sensitivity.2.2.1 "gpt-4" "p" "empty" "unhashable" ⟨"0.7"⟩ 2000 (by decide),
   C6_fingerprint_sensitivity.2.2.2.1 "gpt-4" "p" "empty" ⟨"0.7"⟩ ⟨"0.8"⟩ 2000 (by decide),
   C6_fingerprint_sensitivity.2.2.2.2 "gpt-4" "p" "empty" ⟨"0.7"⟩ 2000 2001 (by decide)⟩

/-- C8 counterexample: with authentication NOT required, a request without
the X-API-Key header is still rejected (FastAPI validation error), because
the header parameter is declared required; the claim says it would proceed
into the pipeline unrejected. -/
theorem C8_counterexample_absent_header_rejected :
    verifyApiKey false Option.none = AuthOutcome.validationError := rfl

/-- C8 (amended): the X-API-Key header is required at the transport layer —
a request without it is rejected with a validation error whether or not
authentication is required; a request with an EMPTY header value is rejected
as unauthorized exactly when authentication is required; any request with a
nonempty header value proceeds. -/
theorem C8_api_key_header :
    ∀ (auth_required : Bool) (v : String),
      verifyApiKey auth_required Option.none = AuthOutcome.validationError ∧
      verifyApiKey auth_required (Option.some "")
        = (if auth_required then AuthOutcome.unauthorized
           else AuthOutcome.authorized "") ∧
      (v ≠ "" → verifyApiKey auth_required (Option.some v)
        = AuthOutcome.authorized v) := by
  intro ar v
  refine ⟨rfl, ?_, ?_⟩
  · cases ar <;> rfl
  · intro hv
    have hb : (v == "") = false := by
      simp [hv]
    simp [verifyApiKey, hb]

/-- Witness for C8 at a concrete nonempty key with authentication required. -/
theorem C8_api_key_header_witness :
    ("test_key" : String) ≠ "" ∧
    verifyApiKey true (Option.some "test_key") = AuthOutcome.authorized "test_key" :=
  ⟨by decide, (C8_api_key_header true "test_key").2.2 (by decide)⟩

/-- C9: registering an already-bound model id replaces the adapter (last
write wins) while `list_models` keeps the id at its original position with
unchanged length; a fresh id is appended; so `list_models` stays
duplicate-free in first-registration order. -/
theorem C9_registry_register :
    ∀ (adapters : List (String × AdapterBehavior)) (k : String) (a : AdapterBehavior),
      (AIAdapterRegistry.list_models (AIAdapterRegistry.register adapters k a)
        = if (AIAdapterRegistry.list_models adapters).contains k
          then AIAdapterRegistry.list_models adapters
          else AIAdapterRegistry.list_models adapters ++ [k]) ∧
      AIAdapterRegistry.get (AIAdapterRegistry.register adapters k a) k
        = Except.ok a ∧
      ((AIAdapterRegistry.list_models adapters).Nodup →
        (AIAdapterRegistry.list_models (AIAdapterRegistry.register adapters k a)).Nodup) := by
  intro adapters k a
  refine ⟨dictInsert_map_fst adapters k a, ?_, ?_⟩
  · simp [AIAdapterRegistry.get, AIAdapterRegistry.register,
      dictFind_dictInsert_self]
  · intro hnd
    unfold AIAdapterRegistry.list_models AIAdapterRegistry.register
    unfold AIAdapterRegistry.list_models at hnd
    rw [dictInsert_map_fst]
    rcases hc : (adapters.map Prod.fst).contains k with _ | _
    · simp only [Bool.false_eq_true, if_false]
      rw [List.nodup_append]
      refine ⟨hnd, List.nodup_singleton k, ?_⟩
      intro x hx hxk
      rw [List.mem_singleton] at hxk
      subst hxk
      have : (adapters.map Prod.fst).contains x = true := List.elem_eq_true_of_mem hx
      rw [hc] at this
      exact absurd this (by simp)
    · simp only [if_true]
      exact hnd

/-- Witness for C9: re-registering gpt-4 keeps the model list duplicate-free. -/
theorem C9_registry_register_witness :
    (AIAdapterRegistry.list_models
      (AIAdapterRegistry.register [("gpt-4", mockAdapter)] "gpt-4" mockAdapter)).Nodup :=
  (C9_registry_register [("gpt-4", mockAdapter)] "gpt-4" mockAdapter).2.2 (by decide)

/-- C10: every dependency entry produced by `perform_health_checks` is
"healthy" or "unhealthy" (never "degraded"), and `get_overall_status` on such
output is HEALTHY when all entries are healthy and UNHEALTHY otherwise; the
DEGRADED overall status is unreachable from these checks. -/
theorem C10_health_overall_never_degraded :
    ∀ (ping : Except String Unit) (wishub_core_url : String) (probe : CoreProbe),
      (performHealthChecks ping wishub_core_url probe).all
        (fun kv => kv.2.status == "healthy" || kv.2.status == "unhealthy") = true ∧
      getOverallStatus (performHealthChecks ping wishub_core_url probe)
        = (if (performHealthChecks ping wishub_core_url probe).all
              (fun kv => kv.2.status == "healthy")
           then HealthStatus.HEALTHY else HealthStatus.UNHEALTHY) ∧
      getOverallStatus (performHealthChecks ping wishub_core_url probe)
        ≠ HealthStatus.DEGRADED := by
  intro ping url probe
  have hred : (checkRedis ping).status = "healthy" ∨ (checkRedis ping).status = "unhealthy" := by
    rcases ping with pe | pok <;> simp [checkRedis, HealthStatus.value]
  have hcore : (checkWishubCore probe).status = "healthy"
      ∨ (checkWishubCore probe).status = "unhealthy" := by
    rcases probe with c | _ | fe
    · by_cases hc : c = 200 <;> simp [checkWishubCore, hc, HealthStatus.value]
    · simp [checkWishubCore, HealthStatus.value]
    · simp [checkWishubCore, HealthStatus.value]
  have hmain : (performHealthChecks ping url probe).all
        (fun kv => kv.2.status == "healthy" || kv.2.status == "unhealthy") = true ∧
      getOverallStatus (performHealthChecks ping url probe)
        = (if (performHealthChecks ping url probe).all
              (fun kv => kv.2.status == "healthy")
           then HealthStatus.HEALTHY else HealthStatus.UNHEALTHY) := by
    rcases hu : url != "" with _ | _ <;>
      rcases hred with h1 | h1 <;>
      rcases hcore with h2 | h2 <;>
      simp [performHealthChecks, getOverallStatus, hu, h1, h2, HealthStatus.value]
  refine ⟨hmain.1, hmain.2, ?_⟩
  rw [hmain.2]
  split <;> intro h <;> cases h

/-- Witness for C10 at a concrete input (Redis up, core check timed out). -/
theorem C10_health_overall_never_degraded_witness :
    getOverallStatus
        (performHealthChecks (Except.ok ()) "http://localhost:8000" CoreProbe.timeoutExc)
      ≠ HealthStatus.DEGRADED :=
  (C10_health_overall_never_degraded (Except.ok ()) "http://localhost:8000"
    CoreProbe.timeoutExc).2.2

set_option maxRecDepth 1000000 in
/-- C1: on a fingerprint cache hit the pipeline returns a success result
carrying the stored response text and stored tokens_used, skips the
token-budget check and generation entirely (no count_tokens/generate calls),
and on two sequential identical invocations the second one has tokens_used
identical to the first with generate called exactly once overall. The
returned response however carries NO cached field: `MCPInvokeResponse`
declares none and pydantic drops the `cached=True` keyword, which is the
code bug this theorem documents by listing every field the hit response has. -/
theorem C1_cache_hit_behaviour :
    run1.generateCalls = 1 ∧
    run1.metrics = [⟨"gpt-4", "success"⟩] ∧
    run1.response.tokens_used = Option.some 70 ∧
    run2 = { response :=
               { status := "success",
                 context := Option.some sampleCtx,
                 response := Option.some "这是 AI 生成的回答",
                 tokens_used := Option.some 70,
                 message := Option.none,
                 error := Option.none },
             metrics := [⟨"gpt-4", "cached"⟩],
             generateCalls := 0,
             countTokensCalls := 0,
             redis := run1.redis } :=
  ⟨rfl, rfl, rfl, rfl⟩

/-- C2 counterexample: an invocation that terminates at adapter resolution
(unsupported model) returns its MCP_002 result with NO metric recorded at
all, contradicting "exactly one latency-and-outcome metric is recorded
regardless of which stage terminates". -/
theorem C2_counterexample_no_metric_on_unsupported_model :
    (invoke noModelEnv sampleReq).metrics = [] ∧
    (invoke noModelEnv sampleReq).response.error
      = Option.some ⟨"MCP_002", "Unsupported model: gpt-4"⟩ :=
  ⟨rfl, rfl⟩

/-- C2 (amended): at most one metric is recorded per invocation, always
tagged with the request's model id and one of success/cached/error, and a
metric is recorded exactly when the pipeline reaches the cache-hit return or
the generation stage; invocations terminated by adapter resolution (MCP_002),
context fetch (MCP_001) or the token budget (MCP_003) record no metric. -/
theorem C2_metric_exactly_on_hit_or_generation :
    ∀ (env : InvokeEnv) (req : MCPInvokeRequest),
      (invoke env req).metrics.all
        (fun m => m.model == req.model_id &&
          (m.status == "success" || m.status == "cached" || m.status == "error")) = true ∧
      (invoke env req).metrics.length ≤ 1 ∧
      ((invoke env req).metrics = [] ↔
        ((invoke env req).response.error.map MCPError.code = Option.some "MCP_002" ∨
         (invoke env req).response.error.map MCPError.code = Option.some "MCP_001" ∨
         (invoke env req).response.error.map MCPError.code = Option.some "MCP_003")) := by
  intro env req
  obtain ⟨reg, ctxres, cm, rds⟩ := env
  simp only [invoke]
  cases hreg : AIAdapterRegistry.get reg req.model_id with
  | error e => simp
  | ok adapter =>
    cases ctxres with
    | error pe =>
      cases pe <;> simp
    | ok ctx =>
      simp only []
      cases hget : routeCacheGet cm rds req (PyValue.dict ctx) with
      | some payload => simp
      | none =>
        simp only [afterMiss]
        cases h1 : adapter.countTokens req.prompt with
        | error e1 =>
          simp only []
          split
          · simp
          · cases hg : adapter.generate req.prompt (PyValue.dict ctx)
              req.max_tokens req.temperature with
            | error ge => cases ge <;> simp
            | ok response_text =>
              cases h3 : adapter.countTokens response_text with
              | error e3 => cases e3 <;> simp [h3]
              | ok out => simp [h3]
        | ok pt =>
          cases h2 : adapter.countTokens (buildContextString ctx) with
          | error e2 =>
            simp only []
            split
            · simp
            · cases hg : adapter.generate req.prompt (PyValue.dict ctx)
                req.max_tokens req.temperature with
              | error ge => cases ge <;> simp
              | ok response_text =>
                cases h3 : adapter.countTokens response_text with
                | error e3 => cases e3 <;> simp [h3]
                | ok out => simp [h3]
          | ok ct =>
            simp only []
            split
            · simp
            · cases hg : adapter.generate req.prompt (PyValue.dict ctx)
                req.max_tokens req.temperature with
              | error ge => cases ge <;> simp
              | ok response_text =>
                cases h3 : adapter.countTokens response_text with
                | error e3 => cases e3 <;> simp [h3]
                | ok out => simp [h3]

/-- Witness for C2 on a concrete environment and request. -/
theorem C2_metric_exactly_on_hit_or_generation_witness :
    (invoke budgetEnv sampleReq).metrics.length ≤ 1 :=
  (C2_metric_exactly_on_hit_or_generation budgetEnv sampleReq).2.1

/-- C7: every result the pipeline returns populates exactly one of
response and error: status "success" comes with a response text and no
structured error, status "error" with a structured error and no response
text, and no other status occurs. -/
theorem C7_response_xor_error :
    ∀ (env : InvokeEnv) (req : MCPInvokeRequest),
      ((invoke env req).response.status = "success" ∧
        (invoke env req).response.response.isSome = true ∧
        (invoke env req).response.error = Option.none) ∨
      ((invoke env req).response.status = "error" ∧
        (invoke env req).response.error.isSome = true ∧
        (invoke env req).response.response = Option.none) := by
  intro env req
  obtain ⟨reg, ctxres, cm, rds⟩ := env
  simp only [invoke]
  cases hreg : AIAdapterRegistry.get reg req.model_id with
  | error e => simp
  | ok adapter =>
    cases ctxres with
    | error pe =>
      cases pe <;> simp
    | ok ctx =>
      simp only []
      cases hget : routeCacheGet cm rds req (PyValue.dict ctx) with
      | some payload => simp
      | none =>
        simp only [afterMiss]
        cases h1 : adapter.countTokens req.prompt with
        | error e1 =>
          simp only []
          split
          · simp
          · cases hg : adapter.generate req.prompt (PyValue.dict ctx)
              req.max_tokens req.temperature with
            | error ge => cases ge <;> simp
            | ok response_text =>
              cases h3 : adapter.countTokens response_text with
              | error e3 => cases e3 <;> simp [h3]
              | ok out => simp [h3]
        | ok pt =>
          cases h2 : adapter.countTokens (buildContextString ctx) with
          | error e2 =>
            simp only []
            split
            · simp
            · cases hg : adapter.generate req.prompt (PyValue.dict ctx)
                req.max_tokens req.temperature with
              | error ge => cases ge <;> simp
              | ok response_text =>
                cases h3 : adapter.countTokens response_text with
                | error e3 => cases e3 <;> simp [h3]
                | ok out => simp [h3]
          | ok ct =>
            simp only []
            split
            · simp
            · cases hg : adapter.generate req.prompt (PyValue.dict ctx)
                req.max_tokens req.temperature with
              | error ge => cases ge <;> simp
              | ok response_text =>
                cases h3 : adapter.countTokens response_text with
                | error e3 => cases e3 <;> simp [h3]
                | ok out => simp [h3]

theorem routeCacheGet_clientless_or_disabled (st : RedisState) (r : MCPInvokeRequest)
    (cd : PyValue) : routeCacheGet Option.none st r cd = Option.none := rfl

theorem routeCacheSet_clientless_or_disabled (st : RedisState) (r : MCPInvokeRequest)
    (cd : PyValue) (pl : CachedPayload) : routeCacheSet Option.none st r cd pl = st := rfl

/-- C3: every cache-store error raised during CacheManager.get or
CacheManager.set is caught and turned into a miss (get returns None) or a
no-op (set returns False, store unchanged), and the whole invocation then
produces exactly the outcome it would produce with caching disabled — no
invocation returns an error because of a cache failure. -/
theorem C3_cache_failures_degrade_to_disabled :
    ∀ (env : InvokeEnv) (req : MCPInvokeRequest) (mgr : CacheManager) (ops : CacheClientOps),
      env.cacheMgr = Option.some mgr →
      mgr.client = Option.some ops →
      (∀ st k, ∃ e, ops.getOp st k = Except.error e) →
      (∀ st k t v, ∃ e, ops.setexOp st k t v = Except.error e) →
      (∀ st m p c t mt, CacheManager.get mgr st m p c t mt = Option.none) ∧
      (∀ st m p c t mt pl ttl, CacheManager.set mgr st m p c t mt pl ttl = (false, st)) ∧
      invoke env req = invoke { env with cacheMgr := Option.none } req := by
  intro env req mgr ops henv hcli hget hset
  have hG : ∀ st m p c t mt, CacheManager.get mgr st m p c t mt = Option.none := by
    intro st m p c t mt
    unfold CacheManager.get
    rcases hmE : mgr.enabled with _ | _
    · simp [hmE]
    · rw [if_neg (by simp [hmE])]
      rw [hcli]
      simp only []
      obtain ⟨e, hk⟩ := hget st (generateCacheKey m p (hashContext c) t mt)
      rw [hk]
  have hS : ∀ st m p c t mt pl ttl,
      CacheManager.set mgr st m p c t mt pl ttl = (false, st) := by
    intro st m p c t mt pl ttl
    unfold CacheManager.set
    rcases hmE : mgr.enabled with _ | _
    · simp [hmE]
    · rw [if_neg (by simp [hmE])]
      rw [hcli]
      simp only []
      obtain ⟨e, hk⟩ := hset st (generateCacheKey m p (hashContext c) t mt)
        (match ttl with
         | Option.some t0 => if t0 = 0 then mgr.default_ttl else t0
         | Option.none => mgr.default_ttl) pl
      rw [hk]
  have hRCg : ∀ st r cd, routeCacheGet (Option.some mgr) st r cd = Option.none := by
    intro st r cd
    unfold routeCacheGet
    rcases hmE : mgr.enabled with _ | _ <;> simp [hmE, hG]
  have hRCs : ∀ st r cd pl, routeCacheSet (Option.some mgr) st r cd pl = st := by
    intro st r cd pl
    unfold routeCacheSet
    rcases hmE : mgr.enabled with _ | _ <;> simp [hmE, hS]
  refine ⟨hG, hS, ?_⟩
  obtain ⟨reg, ctxres, cmF, rds⟩ := env
  simp only at henv
  subst henv
  simp only [invoke]
  cases hreg : AIAdapterRegistry.get reg req.model_id with
  | error e => rfl
  | ok adapter =>
    cases ctxres with
    | error pe => cases pe <;> rfl
    | ok ctx =>
      simp only [hRCg, routeCacheGet_clientless_or_disabled]
      unfold afterMiss
      simp only [hRCs, routeCacheSet_clientless_or_disabled]

/-- Witness for C3: with a Redis client that raises on every call, the
invocation outcome equals the outcome with no cache manager at all. -/
theorem C3_cache_failures_degrade_to_disabled_witness :
    invoke failCacheEnv sampleReq
      = invoke { failCacheEnv with cacheMgr := Option.none } sampleReq :=
  (C3_cache_failures_degrade_to_disabled failCacheEnv sampleReq
    { enabled := true, client := Option.some failingRedis } failingRedis rfl rfl
    (fun _ _ => ⟨"connection refused", rfl⟩)
    (fun _ _ _ _ => ⟨"connection refused", rfl⟩)).2.2

set_option maxRecDepth 1000000 in
/-- C5: the first half of the claim holds — estimated input tokens above 90%
of max_tokens terminate the invocation with MCP_003 and generate is never
invoked — but the second half fails on the code: when count_tokens raises on
the prompt, the stage treats the total as 0 and the pipeline does continue
into generation, yet the finished invocation is then downgraded to an
MCP_999 error because the success-path metric call reads the never-assigned
local prompt_tokens (UnboundLocalError). This theorem evaluates both
scenarios. -/
theorem C5_token_budget_and_count_failure :
    ((invoke budgetEnv sampleReq).response.status = "error" ∧
     (invoke budgetEnv sampleReq).response.error.map MCPError.code
       = Option.some "MCP_003" ∧
     (invoke budgetEnv sampleReq).generateCalls = 0) ∧
    ((invoke failTokEnv sampleReq).response.status = "error" ∧
     (invoke failTokEnv sampleReq).response.error
       = Option.some ⟨"MCP_999",
           "cannot access local variable prompt_tokens where it is not associated with a value"⟩ ∧
     (invoke failTokEnv sampleReq).generateCalls = 1) :=
  ⟨⟨rfl, rfl, rfl⟩, ⟨rfl, rfl, rfl⟩⟩

/-- Witness for C7 at a concrete environment and request. -/
theorem C7_response_xor_error_witness :
    ((invoke noModelEnv sampleReq).response.status = "success" ∧
      (invoke noModelEnv sampleReq).response.response.isSome = true ∧
      (invoke noModelEnv sampleReq).response.error = Option.none) ∨
    ((invoke noModelEnv sampleReq).response.status = "error" ∧
      (invoke noModelEnv sampleReq).response.error.isSome = true ∧
      (invoke noModelEnv sampleReq).response.response = Option.none) :=
  C7_response_xor_error noModelEnv sampleReq

end WishubMCP

